import Mathlib

/-!
Verification of the OCLAlgo host-side dispatch layer.

This file gives a shallow embedding, in Lean 4, of the cache, argument
binding, read-back, future and device-resolution logic of the OCLAlgo
repository (files task.h, kernel_arg.h, opencl_queue.h, queue.h, future.h,
queue.cc, opencl_queue.cc), and proves or refutes the specification claims
about that logic.

Modelling conventions:
- C++ std::string values are embedded as List Char (byte strings).
- cl::Event handles are embedded by whether the underlying handle is set
  (a default-constructed event has a null handle).
- Device-side objects (cl::Program, cl::Buffer, cl::Kernel) are embedded by
  identity tokens handed out by a counter, since the host logic only ever
  stores, compares and forwards them.
- Throwing cl::Error is embedded as an Except error result.
- Value-initialization T() of an unknown template parameter is embedded as
  the Inhabited default of the corresponding type parameter.
-/

set_option autoImplicit false

namespace oclalgo

/-! ### OpenCL error codes used by the modelled code paths (CL/cl.h) -/

def CL_INVALID_EVENT : Int := -58
def CL_INVALID_PLATFORM : Int := -32
def CL_INVALID_DEVICE : Int := -33
def CL_BUILD_PROGRAM_FAILURE : Int := -11

/-- A thrown cl::Error carries a status code and a message string. -/
structure CLErr where
  code : Int
  msg : String
deriving DecidableEq, Repr

/-- A cl::Event handle: eventSet records whether the underlying OpenCL
event handle is non-null, which is what the C++ test if (event_())
observes. A default-constructed cl::Event has eventSet = false. -/
structure OclEvent where
  eventSet : Bool
deriving DecidableEq, Repr

/-- The null event produced by the default constructor cl::Event(). -/
def OclEvent.nullEvent : OclEvent := ⟨false⟩

/-! ### future.h: class future<T, U>

Fields future_result_, stored_obj_ and event_ as in future.h; T is the
result, U the auxiliary object kept alive during the task. -/

structure FutureH (T U : Type) where
  future_result : T
  stored_obj : U
  event : OclEvent
deriving DecidableEq, Repr

/-- future<T, U>::get() from future.h: if the event handle is set, wait on
it and move out the result; otherwise throw cl::Error(CL_INVALID_EVENT).
Waiting itself always succeeds in the embedding (the device eventually
fires the signal), so the observable outcome is ok or the thrown error. -/
def FutureH.get {T U : Type} (f : FutureH T U) : Except CLErr T :=
  if f.event.eventSet then
    Except.ok f.future_result
  else
    Except.error ⟨CL_INVALID_EVENT, "null event in future::get()"⟩

/-- future<T, U>::wait() from future.h. -/
def FutureH.wait {T U : Type} (f : FutureH T U) : Except CLErr Unit :=
  if f.event.eventSet then
    Except.ok ()
  else
    Except.error ⟨CL_INVALID_EVENT, "null event in future::wait()"⟩

/-- future<T, U>::future(future&&) from future.h: the new object takes the
three fields, and the source is reset to T(), U() and cl::Event(). The
first component is the newly constructed future, the second is the
moved-from source afterwards. -/
def FutureH.moveCtor {T U : Type} [Inhabited T] [Inhabited U]
    (f : FutureH T U) : FutureH T U × FutureH T U :=
  (⟨f.future_result, f.stored_obj, f.event⟩,
   ⟨default, default, OclEvent.nullEvent⟩)

/-- The default/empty state a moved-from future<T, U> is left in. -/
def FutureH.emptyState (T U : Type) [Inhabited T] [Inhabited U] :
    FutureH T U :=
  ⟨default, default, OclEvent.nullEvent⟩

/-! ### opencl_queue.h: class cl_future<T>

Fields stored_data_, buffers_, event_, is_event_set_. Device buffers are
embedded later; for the future claims only their identity matters, so the
buffer list is kept as a type parameter B. -/

structure CLFutureH (T B : Type) where
  stored_data : T
  buffers : List B
  event : OclEvent
  is_event_set : Bool
deriving DecidableEq, Repr

/-- cl_future<T>::cl_future(const T& data): stores only the data and sets
is_event_set_ to false; buffers_ and event_ are default-constructed. -/
def CLFutureH.mkNoEvent {T B : Type} (data : T) : CLFutureH T B :=
  ⟨data, [], OclEvent.nullEvent, false⟩

/-- cl_future<T>::get() from opencl_queue.h: waits only if is_event_set_
and then returns the stored data; never throws on the host side. -/
def CLFutureH.get {T B : Type} (f : CLFutureH T B) : Except CLErr T :=
  Except.ok f.stored_data

/-- cl_future<T>::wait() from opencl_queue.h: waits only if is_event_set_;
never throws on the host side. -/
def CLFutureH.wait {T B : Type} (_f : CLFutureH T B) : Except CLErr Unit :=
  Except.ok ()

/-- cl_future<T>::cl_future(cl_future&& other): the member initializers
copy stored_data_, buffers_, event_ and is_event_set_ from other, and the
constructor body is empty, so the moved-from source keeps all its fields.
First component: the new object; second: the source afterwards. -/
def CLFutureH.moveCtor {T B : Type} (f : CLFutureH T B) :
    CLFutureH T B × CLFutureH T B :=
  (⟨f.stored_data, f.buffers, f.event, f.is_event_set⟩,
   ⟨f.stored_data, f.buffers, f.event, f.is_event_set⟩)

/-! ### Program and kernel caches

std::string keys are embedded as List Char. The std::unordered_map caches
programs_ and kernels_ are embedded as association lists with prepend
insertion (operator square-bracket assignment); only key membership and
the stored handle are ever observed. cl::Program and cl::Kernel objects
are embedded as identity tokens from a per-state counter nextId, so that
"the program that was just built" can be compared with "the program whose
build log is printed". Whether a build succeeds depends on the device
compiler, which is external; it enters the model as the buildOk input. -/

abbrev Str := List Char

def lookupA (m : List (Str × Nat)) (k : Str) : Option Nat :=
  (m.find? (fun e => e.1 = k)).map (fun e => e.2)

def insertA (m : List (Str × Nat)) (k : Str) (v : Nat) : List (Str × Nat) :=
  (k, v) :: m

/-- State of an OpenCLQueue object (opencl_queue.h): the programs_ and
kernels_ caches plus the fresh-identity counter for device objects. -/
structure OCLState where
  programs : List (Str × Nat)
  kernels : List (Str × Nat)
  nextId : Nat
deriving DecidableEq, Repr

/-- Outcome of the compile-and-cache phase of OpenCLQueue::AddTask or of
Queue::CreateTask. okO records whether the program was rebuilt from
source, whether the kernel handle was re-created, and which program the
kernel was created from. buildError records the identity of the program on
which the failed build ran and the identity of the program whose build log
was printed before rethrowing. -/
inductive CompileOutcome where
  | okO (programRebuilt : Bool) (kernelRebuilt : Bool) (kernelProg : Nat)
  | buildError (attemptedProg : Nat) (loggedProg : Nat)
deriving DecidableEq, Repr

/-- Whether a successful outcome rebuilt the program from source. -/
def CompileOutcome.rebuiltProgram : CompileOutcome → Option Bool
  | CompileOutcome.okO r _ _ => some r
  | CompileOutcome.buildError _ _ => none

/-- The compile-and-cache phase of OpenCLQueue::AddTask (opencl_queue.h):
program_id is pathToProgram + compileOptions; on a miss the program object
is stored in programs_ BEFORE build() runs; on build failure the build log
of programs_ indexed by the bare pathToProgram is printed (the map
subscript default-constructs a fresh entry when that key is absent) and
the error is rethrown; the kernel is created anew when the program was
rebuilt or the kernel_id key is absent. -/
def addTaskModel (st : OCLState) (pathToProgram compileOptions kernelName : Str)
    (buildOk : Bool) : OCLState × CompileOutcome :=
  let program_id := pathToProgram ++ compileOptions
  let kernel_id := program_id ++ ("; ").toList ++ kernelName
  match lookupA st.programs program_id with
  | some _ =>
      match lookupA st.kernels kernel_id with
      | some kid => (st, CompileOutcome.okO false false kid)
      | none =>
          let kid := st.nextId
          ({ st with kernels := insertA st.kernels kernel_id kid,
                     nextId := st.nextId + 1 },
           CompileOutcome.okO false true kid)
  | none =>
      let pid := st.nextId
      let st1 : OCLState :=
        { st with programs := insertA st.programs program_id pid,
                  nextId := st.nextId + 1 }
      if buildOk then
        let kid := st1.nextId
        ({ st1 with kernels := insertA st1.kernels kernel_id kid,
                    nextId := st1.nextId + 1 },
         CompileOutcome.okO true true kid)
      else
        match lookupA st1.programs pathToProgram with
        | some lid => (st1, CompileOutcome.buildError pid lid)
        | none =>
            let lid := st1.nextId
            ({ st1 with programs := insertA st1.programs pathToProgram lid,
                        nextId := st1.nextId + 1 },
             CompileOutcome.buildError pid lid)

/-- State of a Queue object (queue.h): the programs_ cache plus the
fresh-identity counter. -/
structure QState where
  programs : List (Str × Nat)
  nextId : Nat
deriving DecidableEq, Repr

/-- Outcome of Queue::CreateTask. okQ records whether the program was
built from source and which program the fresh kernel was created from (a
cl::Kernel is constructed anew on every call). buildErrorQ records the
program on which the failed build ran and the program whose build log was
printed. -/
inductive QOutcome where
  | okQ (programRebuilt : Bool) (kernelProg : Nat)
  | buildErrorQ (attemptedProg : Nat) (loggedProg : Nat)
deriving DecidableEq, Repr

def fmtHeader : Str := ("program=\"").toList

def fmtMid : Str := ("\"\noptions=\"").toList

def fmtTail : Str := ("\"").toList

/-- The program_id of Queue::CreateTask (queue.h): snprintf into a 512
byte buffer of the pattern program="<path>" newline options="<options>",
so the stored key is the formatted text truncated to 511 characters. -/
def fmtProgramId (programName options : Str) : Str :=
  (fmtHeader ++ programName ++ fmtMid ++ options ++ fmtTail).take 511

/-- The compile-and-cache phase of Queue::CreateTask (queue.h): on a cache
hit the stored program is reused; on a miss the program is built and
stored only after build() succeeded; on build failure the log of the
just-built local program object is printed, the error is rethrown and the
cache is left unchanged. -/
def createTaskModel (st : QState) (programName options : Str) (buildOk : Bool) :
    QState × QOutcome :=
  let program_id := fmtProgramId programName options
  match lookupA st.programs program_id with
  | some pid => (st, QOutcome.okQ false pid)
  | none =>
      let pid := st.nextId
      if buildOk then
        ({ st with programs := insertA st.programs program_id pid,
                   nextId := st.nextId + 1 },
         QOutcome.okQ true pid)
      else
        ({ st with nextId := st.nextId + 1 }, QOutcome.buildErrorQ pid pid)

/-! ### opencl_queue.h: argument binding and read-back

SetKernelArgs walks the argument pack in call order, creating a cl::Buffer
for IN / IN_OUT / OUT arguments (pushed into one shared buffers vector)
and binding LOCALE as a local allocation and VAR as an immediate scalar;
GetResults walks the pack again and enqueues an asynchronous read-back for
every OUT / IN_OUT argument, indexing the shared buffers vector at the
ABSOLUTE argument index and overwriting the event with each enqueued read.
Host arrays carry an identity and their memsize() in bytes; each created
device buffer records the argument index whose SetKernelArgs case created
it, which is its identity. -/

inductive DataType where
  | IN
  | OUT
  | IN_OUT
  | LOCALE
  | VAR
deriving DecidableEq, Repr

/-- A shared_array seen through the AddTask interface: an identity for the
host backing store and memsize() in bytes. -/
structure HostArr where
  id : Nat
  msize : Nat
deriving DecidableEq, Repr

/-- cl_data_t: a host array tagged with its kernel-argument direction. -/
structure CLArg where
  io_type : DataType
  host_array : HostArr
deriving DecidableEq, Repr

def dummyArg : CLArg := ⟨DataType.IN, ⟨0, 0⟩⟩

/-- The three cl::Buffer creation modes appearing in SetKernelArgs. -/
inductive BufMode where
  | readOnlyCopyHost
  | readWriteCopyHost
  | writeOnlyNoCopy
deriving DecidableEq, Repr

/-- A device buffer created by SetKernelArgs: srcArg is the argument index
whose case created it (its identity), mode the creation flags, size the
host array's memsize. -/
structure DevBuffer where
  srcArg : Nat
  mode : BufMode
  size : Nat
deriving DecidableEq, Repr

def dummyBuffer : DevBuffer := ⟨0, BufMode.readOnlyCopyHost, 0⟩

/-- What kernel->setArg(argIndex, _) received for one argument. -/
inductive Binding where
  | bufferB (b : DevBuffer)
  | localB (bytes : Nat)
  | varB (hostId : Nat)
deriving DecidableEq, Repr

/-- OpenCLQueue::SetKernelArgs (opencl_queue.h): returns the positional
setArg bindings and the shared buffers vector, processing arguments in
call order starting at the given argIndex. -/
def setKernelArgs : Nat → List CLArg → List (Nat × Binding) × List DevBuffer
  | _, [] => ([], [])
  | argIndex, a :: rest =>
    let next := setKernelArgs (argIndex + 1) rest
    match a.io_type with
    | DataType.IN =>
        let b : DevBuffer :=
          ⟨argIndex, BufMode.readOnlyCopyHost, a.host_array.msize⟩
        ((argIndex, Binding.bufferB b) :: next.1, b :: next.2)
    | DataType.IN_OUT =>
        let b : DevBuffer :=
          ⟨argIndex, BufMode.readWriteCopyHost, a.host_array.msize⟩
        ((argIndex, Binding.bufferB b) :: next.1, b :: next.2)
    | DataType.OUT =>
        let b : DevBuffer :=
          ⟨argIndex, BufMode.writeOnlyNoCopy, a.host_array.msize⟩
        ((argIndex, Binding.bufferB b) :: next.1, b :: next.2)
    | DataType.LOCALE =>
        ((argIndex, Binding.localB a.host_array.msize) :: next.1, next.2)
    | DataType.VAR =>
        ((argIndex, Binding.varB a.host_array.id) :: next.1, next.2)

/-- The io_type test of GetResults and ReturnOutData. -/
def isOutArg (a : CLArg) : Bool :=
  match a.io_type with
  | DataType.OUT => true
  | DataType.IN_OUT => true
  | _ => false

/-- An argument whose SetKernelArgs case pushes a device buffer. -/
def isBufKind (a : CLArg) : Bool :=
  match a.io_type with
  | DataType.LOCALE => false
  | DataType.VAR => false
  | _ => true

/-- Event values distinguishing the kernel-invocation event from the event
of the read-back enqueued while visiting a given argument index. -/
inductive EvV where
  | kernelEv
  | readEv (argIndex : Nat)
deriving DecidableEq, Repr

/-- One enqueueReadBuffer call issued by GetResults: visited argument
index, the device buffer read (buffers indexed at the absolute argument
index), and the destination host array with its byte count. -/
structure ReadBack where
  argIndex : Nat
  buffer : DevBuffer
  hostId : Nat
  size : Nat
deriving DecidableEq, Repr

/-- OpenCLQueue::GetResults (opencl_queue.h): walks the arguments from the
given index, enqueueing a read-back for every OUT / IN_OUT argument from
buffers[argIndex] into that argument's host array, overwriting the shared
event with each enqueued read; returns the final event value and the
read-backs in submission order. -/
def getResults : Nat → List DevBuffer → EvV → List CLArg → EvV × List ReadBack
  | _, _, ev, [] => (ev, [])
  | argIndex, bufs, ev, a :: rest =>
    if isOutArg a then
      let rb : ReadBack :=
        ⟨argIndex, bufs.getD argIndex dummyBuffer, a.host_array.id,
         a.host_array.msize⟩
      let next := getResults (argIndex + 1) bufs (EvV.readEv argIndex) rest
      (next.1, rb :: next.2)
    else
      getResults (argIndex + 1) bufs ev rest

/-- ReturnOutData (opencl_queue.h): a singleton for OUT / IN_OUT, empty
otherwise. -/
def returnOutData (a : CLArg) : List HostArr :=
  if isOutArg a then [a.host_array] else []

/-- ComposeOutTuple (opencl_queue.h): tuple_cat of ReturnOutData over the
arguments in call order. -/
def composeOutTuple : List CLArg → List HostArr
  | [] => []
  | a :: rest => returnOutData a ++ composeOutTuple rest

/-- Everything AddTask does after the kernel is ready: SetKernelArgs from
index 0, enqueueNDRangeKernel producing the kernel event, GetResults from
index 0 refining the event, and ComposeOutTuple for the future's stored
data. -/
structure TaskSubmission where
  binds : List (Nat × Binding)
  buffers : List DevBuffer
  readbacks : List ReadBack
  finalEvent : EvV
  outTuple : List HostArr
deriving DecidableEq, Repr

def addTaskEnqueue (args : List CLArg) : TaskSubmission :=
  let sk := setKernelArgs 0 args
  let gr := getResults 0 sk.2 EvV.kernelEv args
  ⟨sk.1, sk.2, gr.2, gr.1, composeOutTuple args⟩

/-- The cl_future AddTask returns: cl_future(t, buffers, event) with the
ComposeOutTuple value, the shared buffers vector and the event left after
GetResults; its three-argument constructor sets is_event_set_. -/
structure CLFutureRet where
  stored_data : List HostArr
  buffers : List DevBuffer
  event : EvV
  is_event_set : Bool
deriving DecidableEq, Repr

def addTaskReturnedFuture (args : List CLArg) : CLFutureRet :=
  let sub := addTaskEnqueue args
  ⟨sub.outTuple, sub.buffers, sub.finalEvent, true⟩

/-! ### task.h: class Task -/

/-- ArgType from kernel_arg.h. -/
inductive ArgTypeK where
  | IN
  | OUT
  | IN_OUT
deriving DecidableEq, Repr

/-- A KernelArg as Task::SetArg sees it: isBufferArg is the
std::is_same test against KernelArg of cl::Buffer, data the wrapped
handle's identity, arg_type the direction tag. -/
structure TaskArg where
  isBufferArg : Bool
  data : Nat
  arg_type : ArgTypeK
deriving DecidableEq, Repr

/-- The kernel_ setArg calls plus the buffers_ and output_ vectors of a
Task object. -/
structure TaskState where
  binds : List (Nat × Nat)
  buffers_ : List Nat
  output_ : List Nat
deriving DecidableEq, Repr

/-- Task::SetArg single-argument case (task.h): always calls
kernel_.setArg(index, arg.data); when the argument is a buffer argument it
is appended to output_ if tagged OUT or IN_OUT and to buffers_
otherwise. -/
def taskSetArg (index : Nat) (a : TaskArg) (st : TaskState) : TaskState :=
  let st1 := { st with binds := st.binds ++ [(index, a.data)] }
  if a.isBufferArg then
    if a.arg_type = ArgTypeK.OUT ∨ a.arg_type = ArgTypeK.IN_OUT then
      { st1 with output_ := st1.output_ ++ [a.data] }
    else
      { st1 with buffers_ := st1.buffers_ ++ [a.data] }
  else st1

/-- Task::SetArg variadic recursion: processes the head at the current
index, then the tail at index + 1. -/
def taskSetArgs : Nat → List TaskArg → TaskState → TaskState
  | _, [], st => st
  | i, a :: rest, st => taskSetArgs (i + 1) rest (taskSetArg i a st)

/-- The Task constructor: SetArg(0, args...). -/
def taskBuild (args : List TaskArg) : TaskState :=
  taskSetArgs 0 args ⟨[], [], []⟩

/-- The buffer-argument test for membership in output_. -/
def isTaskOut (a : TaskArg) : Bool :=
  a.isBufferArg &&
    (match a.arg_type with
     | ArgTypeK.OUT => true
     | ArgTypeK.IN_OUT => true
     | ArgTypeK.IN => false)

/-- The buffer-argument test for membership in buffers_. -/
def isTaskIn (a : TaskArg) : Bool :=
  a.isBufferArg &&
    (match a.arg_type with
     | ArgTypeK.OUT => false
     | ArgTypeK.IN_OUT => false
     | ArgTypeK.IN => true)

/-! ### Device resolution (queue.cc and opencl_queue.cc)

Both name-based constructors run the same loop shape: find the first
platform whose name matches, then (in that platform's context) the first
device whose name matches, throwing CL_INVALID_PLATFORM respectively
CL_INVALID_DEVICE when none matches. They differ only in the matcher:
Queue::Queue (queue.cc) upper-cases both pattern and enumerated name
before calling std::string::find, OpenCLQueue::OpenCLQueue
(opencl_queue.cc) calls std::string::find on the raw strings. -/

def toUpperL (s : Str) : Str := s.map Char.toUpper

/-- Whether pat is an initial segment of hay (the per-position test of
std::string::find). -/
def leadsWith : Str → Str → Bool
  | [], _ => true
  | _ :: _, [] => false
  | p :: ps, h :: hs => p == h && leadsWith ps hs

/-- std::string::find: the least offset at which pat occurs in hay, none
standing for std::string::npos. -/
def strFind (pat : Str) : Str → Option Nat
  | [] => if leadsWith pat [] then some 0 else none
  | h :: t =>
      if leadsWith pat (h :: t) then some 0
      else (strFind pat t).map (fun i => i + 1)

/-- The spec-side notion of substring occurrence, for comparison with the
std::string::find test of the source. -/
def containsSub (pat hay : Str) : Prop :=
  ∃ pre post, hay = pre ++ pat ++ post

/-- An enumerated platform: its name and its devices' names (the devices
of the context created for that platform). -/
structure PlatformM where
  name : Str
  devices : List Str
deriving DecidableEq, Repr

def pmDefault : PlatformM := ⟨[], []⟩

/-- The find_if plus distance loop of both constructors: index of the
first list element satisfying the matcher. -/
def findFirstIdx {α : Type} (p : α → Bool) : List α → Option Nat
  | [] => none
  | a :: rest =>
      if p a then some 0 else (findFirstIdx p rest).map (fun i => i + 1)

/-- The shared resolution shape of both name-based constructors: first
matching platform, else CL_INVALID_PLATFORM; then first matching device of
that platform, else CL_INVALID_DEVICE. -/
def resolveFirst (pp : PlatformM → Bool) (dp : Str → Bool)
    (platforms : List PlatformM) : Except Int (Nat × Nat) :=
  match findFirstIdx pp platforms with
  | none => Except.error CL_INVALID_PLATFORM
  | some i =>
      match findFirstIdx dp (platforms.getD i pmDefault).devices with
      | none => Except.error CL_INVALID_DEVICE
      | some j => Except.ok (i, j)

/-- Queue::Queue(platformPartName, devicePartName) from queue.cc: both
pattern and enumerated names are upper-cased before the substring test. -/
def queueResolve (platforms : List PlatformM)
    (platformPartName devicePartName : Str) : Except Int (Nat × Nat) :=
  resolveFirst
    (fun pm => (strFind (toUpperL platformPartName) (toUpperL pm.name)).isSome)
    (fun d => (strFind (toUpperL devicePartName) (toUpperL d)).isSome)
    platforms

/-- OpenCLQueue::OpenCLQueue(platformName, deviceName) from
opencl_queue.cc: raw, case-sensitive substring test. -/
def openclResolve (platforms : List PlatformM)
    (platformName deviceName : Str) : Except Int (Nat × Nat) :=
  resolveFirst
    (fun pm => (strFind platformName pm.name).isSome)
    (fun d => (strFind deviceName d).isSome)
    platforms

/-! ### queue.cc: the index-based constructor Queue(int, int)

The guards are static_cast<int>(vec.size()) <= id; the platform vector is
indexed right after the platform guard passes, before the device guard
runs. The trace records which indices were used to subscript the platform
and device vectors and which cl::Error, if any, was thrown. -/

structure IdxTrace where
  platformAccess : Option Int
  deviceAccess : Option Int
  threw : Option Int
deriving DecidableEq, Repr

def queueCtorIdx (nPlatforms nDevices : Nat) (platformId deviceId : Int) :
    IdxTrace :=
  if (nPlatforms : Int) ≤ platformId then
    ⟨none, none, some CL_INVALID_PLATFORM⟩
  else if (nDevices : Int) ≤ deviceId then
    ⟨some platformId, none, some CL_INVALID_DEVICE⟩
  else
    ⟨some platformId, some deviceId, none⟩

/-! ### Claim C2

The claim: byte-identical (path, options, entry point) requests reuse the
cached program, and any one-character change to the path or the options
forces a recompilation. OpenCLQueue::AddTask satisfies this: its key is
the untruncated concatenation path ++ options. Queue::CreateTask formats
its key through a 512 byte snprintf buffer, so the stored key keeps only
the first 511 characters and option changes that only affect the
truncated-away region are silently treated as cache hits: no rebuild. -/

def longPath : Str := List.replicate 502 'a'

def c2run1 : QState × QOutcome := createTaskModel ⟨[], 0⟩ longPath ['x'] true

def c2run2 : QState × QOutcome := createTaskModel c2run1.1 longPath ['y'] true

/-! ### Claim C3

The claim: a failed build raises the error and leaves the program cache
unchanged, so a later identical request attempts a fresh build; programs
are inserted only after a successful build. Queue::CreateTask satisfies
this, but OpenCLQueue::AddTask assigns the program object into programs_
BEFORE calling build(), so a failed build leaves the unbuilt program
cached under the requested key and a retry silently reuses it. -/

def failedAddTask : OCLState × CompileOutcome :=
  addTaskModel ⟨[], [], 0⟩ ("a.cl").toList ("-DX").toList ("kern").toList false

def retryAddTask : OCLState × CompileOutcome :=
  addTaskModel failedAddTask.1 ("a.cl").toList ("-DX").toList
    ("kern").toList true

/-! ### Claim C1

The claim holds except for its final conjunct: GetResults indexes the
shared buffers vector at the ABSOLUTE argument index, while that vector
holds only the buffers of IN / OUT / IN_OUT arguments. When a LOCALE or
VAR argument precedes an OUT / IN_OUT argument, the indices shift and the
read-back copies a buffer realized for a LATER argument (or reads out of
bounds), not the buffer realized for that same argument. -/

def demoBadArgs : List CLArg :=
  [⟨DataType.LOCALE, ⟨0, 16⟩⟩, ⟨DataType.OUT, ⟨1, 64⟩⟩,
   ⟨DataType.IN, ⟨2, 64⟩⟩]

/-! ### Theorems -/

/-! ### Cache lemmas -/

theorem lookupA_insert_self (m : List (Str × Nat)) (k : Str) (v : Nat) :
    lookupA (insertA m k v) k = some v := by
  simp [lookupA, insertA, List.find?]

theorem lookupA_insert_ne (m : List (Str × Nat)) (k k' : Str) (v : Nat)
    (h : k' ≠ k) : lookupA (insertA m k v) k' = lookupA m k' := by
  simp [lookupA, insertA, List.find?, Ne.symm h]

theorem lookupA_cons_self (m : List (Str × Nat)) (k : Str) (v : Nat) :
    lookupA ((k, v) :: m) k = some v :=
  lookupA_insert_self m k v

theorem lookupA_cons_ne (m : List (Str × Nat)) (k k' : Str) (v : Nat)
    (h : k' ≠ k) : lookupA ((k, v) :: m) k' = lookupA m k' :=
  lookupA_insert_ne m k k' v h

/-- Truncation lemma: when the header plus the path already fill the 511
byte key, the options no longer influence the stored program_id. -/
theorem fmtProgramId_of_long_path (p o : Str)
    (h : 511 ≤ (fmtHeader ++ p).length) :
    fmtProgramId p o = (fmtHeader ++ p).take 511 := by
  have hassoc : fmtHeader ++ p ++ fmtMid ++ o ++ fmtTail
      = (fmtHeader ++ p) ++ (fmtMid ++ o ++ fmtTail) := by
    simp [List.append_assoc]
  rw [fmtProgramId, hassoc, List.take_append_of_le_length h]

/-- Two keys built by appending distinct option strings to the same path
differ. -/
theorem append_ne_of_ne_options (p o o' : Str) (h : o ≠ o') :
    p ++ o ≠ p ++ o' :=
  fun hpo => h (List.append_cancel_left hpo)

/-- Two keys built by appending the same option string to distinct paths
differ. -/
theorem append_ne_of_ne_path (p p' o : Str) (h : p ≠ p') :
    p ++ o ≠ p' ++ o :=
  fun hpo => h (List.append_cancel_right hpo)

/-- When neither formatted key is truncated, the CreateTask program_id
determines the option string. -/
theorem fmtProgramId_inj_options (p o o' : Str)
    (h1 : (fmtHeader ++ p ++ fmtMid ++ o ++ fmtTail).length ≤ 511)
    (h2 : (fmtHeader ++ p ++ fmtMid ++ o' ++ fmtTail).length ≤ 511)
    (h : fmtProgramId p o = fmtProgramId p o') : o = o' := by
  rw [fmtProgramId, fmtProgramId, List.take_of_length_le h1,
      List.take_of_length_le h2] at h
  have h3 : (fmtHeader ++ p ++ fmtMid) ++ (o ++ fmtTail)
      = (fmtHeader ++ p ++ fmtMid) ++ (o' ++ fmtTail) := by
    simpa [List.append_assoc] using h
  exact List.append_cancel_right (List.append_cancel_left h3)

/-- When neither formatted key is truncated, the CreateTask program_id
determines the path as well. -/
theorem fmtProgramId_inj_path (p p' o : Str)
    (h1 : (fmtHeader ++ p ++ fmtMid ++ o ++ fmtTail).length ≤ 511)
    (h2 : (fmtHeader ++ p' ++ fmtMid ++ o ++ fmtTail).length ≤ 511)
    (h : fmtProgramId p o = fmtProgramId p' o) : p = p' := by
  rw [fmtProgramId, fmtProgramId, List.take_of_length_le h1,
      List.take_of_length_le h2] at h
  have h3 : fmtHeader ++ (p ++ (fmtMid ++ o ++ fmtTail))
      = fmtHeader ++ (p' ++ (fmtMid ++ o ++ fmtTail)) := by
    simpa [List.append_assoc] using h
  have h4 := List.append_cancel_left h3
  exact List.append_cancel_right h4

/-- A lookup hit names a value stored in the map. -/
theorem lookupA_some_mem (m : List (Str × Nat)) (k : Str) (v : Nat)
    (h : lookupA m k = some v) : ∃ e ∈ m, e.2 = v := by
  unfold lookupA at h
  cases hf : m.find? (fun e => e.1 = k) with
  | none => rw [hf] at h; exact absurd h (by simp)
  | some e =>
      rw [hf] at h
      exact ⟨e, List.mem_of_find?_eq_some hf, by simpa using h⟩

/-! ### Claim C4 -/

/-- C4: for every future.h completion handle whose completion signal was
never set (null event, as in a moved-from handle), both wait() and get()
fail immediately with cl::Error carrying CL_INVALID_EVENT instead of
blocking forever. -/
theorem C4_null_event_wait_get_fail (T U : Type) (f : FutureH T U)
    (h : f.event.eventSet = false) :
    f.get = Except.error ⟨CL_INVALID_EVENT, "null event in future::get()"⟩ ∧
    f.wait = Except.error ⟨CL_INVALID_EVENT, "null event in future::wait()"⟩ := by
  constructor
  · simp [FutureH.get, h]
  · simp [FutureH.wait, h]

/-- Witness for C4 at a concrete moved-from handle. -/
theorem C4_witness :
    (FutureH.mk (T := Nat) (U := List Nat) 7 [1, 2] OclEvent.nullEvent).get
      = Except.error ⟨CL_INVALID_EVENT, "null event in future::get()"⟩ ∧
    (FutureH.mk (T := Nat) (U := List Nat) 7 [1, 2] OclEvent.nullEvent).wait
      = Except.error ⟨CL_INVALID_EVENT, "null event in future::wait()"⟩ :=
  C4_null_event_wait_get_fail Nat (List Nat) ⟨7, [1, 2], OclEvent.nullEvent⟩ rfl

/-! ### Claim C5

The claim asserts that EVERY completion handle constructed without a real
asynchronous operation returns from wait()/get() immediately without
error. That is true of cl_future (opencl_queue.h) but false of future
(future.h), whose wait()/get() throw CL_INVALID_EVENT on a null event, so
the claim is corrected: it holds for cl_future handles only. -/

/-- C5 counterexample: a future.h handle whose signal was never set (the
only way to hold a future with no real asynchronous operation behind it)
does not return without error from wait(): it throws CL_INVALID_EVENT. -/
theorem C5_counterexample :
    (FutureH.mk (T := Nat) (U := List Nat) 5 [] OclEvent.nullEvent).wait
      ≠ Except.ok () := by
  simp [FutureH.wait, OclEvent.nullEvent]

/-- C5 amended: for every cl_future handle constructed from a plain value
(constructor cl_future(const T&), which marks the event as not set),
wait() and get() return immediately without error and get() yields the
stored result value. The analogous statement for future.h handles fails:
there an unset signal makes wait()/get() throw CL_INVALID_EVENT. -/
theorem C5_noevent_returns_immediately (T B : Type) (data : T) :
    (CLFutureH.mkNoEvent (B := B) data).is_event_set = false ∧
    (CLFutureH.mkNoEvent (B := B) data).wait = Except.ok () ∧
    (CLFutureH.mkNoEvent (B := B) data).get = Except.ok data := by
  refine ⟨rfl, rfl, rfl⟩

/-! ### Claim C6

The claim asserts that move-construction of EVERY completion handle
transfers result, kept-alive object and signal, and leaves the source
default/empty. True of future.h; false of cl_future, whose move
constructor copies the members and leaves the source untouched. -/

/-- C6 counterexample: moving from a concrete cl_future does not leave the
source in the default/empty state: the source keeps its stored data,
buffers, event and is_event_set flag. -/
theorem C6_counterexample :
    ((CLFutureH.mk (T := Nat) (B := Nat) 3 [10] ⟨true⟩ true).moveCtor).2
      ≠ CLFutureH.mkNoEvent 0 := by
  simp [CLFutureH.moveCtor, CLFutureH.mkNoEvent]

/-- C6 amended: copy construction and assignment are deleted on both
handle classes, and move-construction of a future.h handle transfers the
result value, the kept-alive object and the completion signal and leaves
the source default/empty; the cl_future move constructor instead copies
all four members and leaves the moved-from source unchanged. -/
theorem C6_move_semantics (T U B : Type) [Inhabited T] [Inhabited U]
    (f : FutureH T U) (g : CLFutureH T B) :
    (f.moveCtor.1 = f ∧ f.moveCtor.2 = FutureH.emptyState T U) ∧
    (g.moveCtor.1 = g ∧ g.moveCtor.2 = g) := by
  exact ⟨⟨rfl, rfl⟩, ⟨rfl, rfl⟩⟩

set_option maxRecDepth 4000 in
/-- C2 counterexample: on a Queue whose cache holds one successful build
for a 502-character path with options x, requesting the same path with the
changed options y is a cache hit (programRebuilt = false, stale program 0
reused), because the formatted key is truncated at 511 characters before
the options are reached. This refutes, at a concrete input, that any
one-character change to the compile options forces a recompilation. -/
theorem C2_counterexample :
    (['x'] : Str) ≠ ['y'] ∧
    c2run1.2 = QOutcome.okQ true 0 ∧
    c2run2.2 = QOutcome.okQ false 0 := by
  have hlen : 511 ≤ (fmtHeader ++ longPath).length := by decide
  have hk : fmtProgramId longPath ['y'] = fmtProgramId longPath ['x'] := by
    rw [fmtProgramId_of_long_path _ _ hlen, fmtProgramId_of_long_path _ _ hlen]
  refine ⟨by decide, rfl, ?_⟩
  show (createTaskModel c2run1.1 longPath ['y'] true).2 = QOutcome.okQ false 0
  have h1 : c2run1.1 = ⟨[(fmtProgramId longPath ['x'], 0)], 1⟩ := rfl
  rw [h1]
  simp [createTaskModel, hk, lookupA_cons_self]

/-- C2 amended: byte-identical requests reuse the cache and single-
component changes force a rebuild, with the CreateTask half restricted to
requests whose formatted key is not truncated. In detail: (A) a second
AddTask request identical to a prior successful build reuses both the
cached program and the cached kernel; (B) changing only the options, or
(B2) only the path, of an AddTask request forces a program and kernel
rebuild; (C) a second identical CreateTask request reuses the cached
program; (C2) a CreateTask request with changed options, and (C3) one
with a changed path, force a rebuild provided both formatted keys stay
within the 511-character snprintf budget. Hypotheses state that the
involved keys are not yet cached. -/
theorem C2_amended
    (stO : OCLState) (stQ : QState) (p p' o o' k : Str)
    (hpo : lookupA stO.programs (p ++ o) = none)
    (hpo' : lookupA stO.programs (p ++ o') = none)
    (hp'o : lookupA stO.programs (p' ++ o) = none)
    (hoo : o ≠ o') (hpp : p ≠ p')
    (hq : lookupA stQ.programs (fmtProgramId p o) = none)
    (hq' : lookupA stQ.programs (fmtProgramId p o') = none)
    (hq2 : lookupA stQ.programs (fmtProgramId p' o) = none)
    (hlen : (fmtHeader ++ p ++ fmtMid ++ o ++ fmtTail).length ≤ 511)
    (hlen' : (fmtHeader ++ p ++ fmtMid ++ o' ++ fmtTail).length ≤ 511)
    (hlenp : (fmtHeader ++ p' ++ fmtMid ++ o ++ fmtTail).length ≤ 511) :
    (addTaskModel (addTaskModel stO p o k true).1 p o k true).2
        = CompileOutcome.okO false false (stO.nextId + 1) ∧
    (addTaskModel (addTaskModel stO p o k true).1 p o' k true).2
        = CompileOutcome.okO true true (stO.nextId + 3) ∧
    (addTaskModel (addTaskModel stO p o k true).1 p' o k true).2
        = CompileOutcome.okO true true (stO.nextId + 3) ∧
    (createTaskModel (createTaskModel stQ p o true).1 p o true).2
        = QOutcome.okQ false stQ.nextId ∧
    (createTaskModel (createTaskModel stQ p o true).1 p o' true).2
        = QOutcome.okQ true (stQ.nextId + 1) ∧
    (createTaskModel (createTaskModel stQ p o true).1 p' o true).2
        = QOutcome.okQ true (stQ.nextId + 1) := by
  have hstep1 : addTaskModel stO p o k true
      = ({ programs := insertA stO.programs (p ++ o) stO.nextId,
           kernels := insertA stO.kernels
             ((p ++ o) ++ ("; ").toList ++ k) (stO.nextId + 1),
           nextId := stO.nextId + 2 },
         CompileOutcome.okO true true (stO.nextId + 1)) := by
    simp [addTaskModel, hpo]
  have hq1 : createTaskModel stQ p o true
      = ({ programs := insertA stQ.programs (fmtProgramId p o) stQ.nextId,
           nextId := stQ.nextId + 1 },
         QOutcome.okQ true stQ.nextId) := by
    simp [createTaskModel, hq]
  refine ⟨?_, ?_, ?_, ?_, ?_, ?_⟩
  · rw [hstep1]
    simp [addTaskModel, lookupA_insert_self]
  · rw [hstep1]
    have hne : p ++ o' ≠ p ++ o := append_ne_of_ne_options p o' o (Ne.symm hoo)
    simp [addTaskModel, lookupA_insert_ne _ _ _ _ hne, hpo',
          lookupA_insert_self]
  · rw [hstep1]
    have hne : p' ++ o ≠ p ++ o := append_ne_of_ne_path p' p o (Ne.symm hpp)
    simp [addTaskModel, lookupA_insert_ne _ _ _ _ hne, hp'o,
          lookupA_insert_self]
  · rw [hq1]
    simp [createTaskModel, lookupA_insert_self]
  · rw [hq1]
    have hne : fmtProgramId p o' ≠ fmtProgramId p o :=
      fun h => hoo (Eq.symm (fmtProgramId_inj_options p o' o hlen' hlen h))
    simp [createTaskModel, lookupA_insert_ne _ _ _ _ hne, hq']
  · rw [hq1]
    have hne : fmtProgramId p' o ≠ fmtProgramId p o :=
      fun h => hpp (Eq.symm (fmtProgramId_inj_path p' p o hlenp hlen h))
    simp [createTaskModel, lookupA_insert_ne _ _ _ _ hne, hq2]

/-- Witness for C2 amended at concrete requests. -/
theorem C2_witness :
    (addTaskModel (addTaskModel ⟨[], [], 0⟩ ("a.cl").toList ("-DA").toList
          ("kern").toList true).1 ("a.cl").toList ("-DA").toList
          ("kern").toList true).2 = CompileOutcome.okO false false 1 ∧
    (addTaskModel (addTaskModel ⟨[], [], 0⟩ ("a.cl").toList ("-DA").toList
          ("kern").toList true).1 ("a.cl").toList ("-DB").toList
          ("kern").toList true).2 = CompileOutcome.okO true true 3 ∧
    (addTaskModel (addTaskModel ⟨[], [], 0⟩ ("a.cl").toList ("-DA").toList
          ("kern").toList true).1 ("b.cl").toList ("-DA").toList
          ("kern").toList true).2 = CompileOutcome.okO true true 3 ∧
    (createTaskModel (createTaskModel ⟨[], 0⟩ ("a.cl").toList
          ("-DA").toList true).1 ("a.cl").toList ("-DA").toList true).2
        = QOutcome.okQ false 0 ∧
    (createTaskModel (createTaskModel ⟨[], 0⟩ ("a.cl").toList
          ("-DA").toList true).1 ("a.cl").toList ("-DB").toList true).2
        = QOutcome.okQ true 1 ∧
    (createTaskModel (createTaskModel ⟨[], 0⟩ ("a.cl").toList
          ("-DA").toList true).1 ("b.cl").toList ("-DA").toList true).2
        = QOutcome.okQ true 1 :=
  C2_amended ⟨[], [], 0⟩ ⟨[], 0⟩ ("a.cl").toList ("b.cl").toList
    ("-DA").toList ("-DB").toList ("kern").toList rfl rfl rfl
    (by decide) (by decide) rfl rfl rfl (by decide) (by decide) (by decide)

/-- C3 counterexample: after a failed AddTask build of (a.cl, -DX) from an
empty cache, the requested key a.cl-DX is still cached (holding unbuilt
program 0), and an identical retry is a cache hit: it does not attempt a
fresh build (programRebuilt = false) and creates its kernel from the
broken program. This refutes both halves of the claim on a concrete
input. -/
theorem C3_counterexample :
    failedAddTask.2 = CompileOutcome.buildError 0 1 ∧
    lookupA failedAddTask.1.programs
        (("a.cl").toList ++ ("-DX").toList) = some 0 ∧
    retryAddTask.2 = CompileOutcome.okO false true 2 := by
  refine ⟨rfl, by decide, by decide⟩

/-- On a program cache hit, AddTask never rebuilds the program from
source, whatever the kernel cache holds. -/
theorem addTask_hit_not_rebuilt (st : OCLState) (p o k : Str) (pid : Nat)
    (b : Bool) (h : lookupA st.programs (p ++ o) = some pid) :
    (addTaskModel st p o k b).2.rebuiltProgram = some false := by
  simp only [addTaskModel, h]
  cases hlook : lookupA st.kernels (p ++ o ++ ("; ").toList ++ k) <;>
    simp [hlook, CompileOutcome.rebuiltProgram]

/-- After a failed AddTask build from a state not holding the requested
key, the requested key is nevertheless cached, holding the unbuilt
program. -/
theorem addTask_fail_key_cached (st : OCLState) (p o k : Str)
    (h : lookupA st.programs (p ++ o) = none) :
    lookupA ((addTaskModel st p o k false).1).programs (p ++ o)
      = some st.nextId := by
  simp only [addTaskModel, h]
  cases hp : lookupA (insertA st.programs (p ++ o) st.nextId) p with
  | none =>
      have hne : p ++ o ≠ p := by
        intro he
        rw [he, lookupA_insert_self] at hp
        exact Option.some_ne_none _ hp
      simp [hp, lookupA_insert_ne _ _ _ _ hne, lookupA_insert_self]
  | some lid => simp [hp, lookupA_insert_self]

/-- C3 amended: compilation is atomic for Queue::CreateTask: on a failed
build the error is raised, the cache is unchanged, the retry attempts a
fresh build, and insertion happens only after success. For
OpenCLQueue::AddTask the program object is stored under the requested key
before building, so after a failed build the entry remains and an
identical retry reuses the unbuilt program without rebuilding. -/
theorem C3_amended
    (stO : OCLState) (stQ : QState) (p o k : Str)
    (hq : lookupA stQ.programs (fmtProgramId p o) = none)
    (ho : lookupA stO.programs (p ++ o) = none) :
    ((createTaskModel stQ p o false).1.programs = stQ.programs ∧
     (createTaskModel stQ p o false).2
        = QOutcome.buildErrorQ stQ.nextId stQ.nextId ∧
     (createTaskModel (createTaskModel stQ p o false).1 p o true).2
        = QOutcome.okQ true (stQ.nextId + 1)) ∧
    (lookupA ((createTaskModel stQ p o true).1).programs (fmtProgramId p o)
        = some stQ.nextId) ∧
    (lookupA ((addTaskModel stO p o k false).1).programs (p ++ o)
        = some stO.nextId ∧
     (addTaskModel (addTaskModel stO p o k false).1 p o k true).2.rebuiltProgram
        = some false) := by
  have hfail : (createTaskModel stQ p o false).1
      = { programs := stQ.programs, nextId := stQ.nextId + 1 } := by
    simp [createTaskModel, hq]
  refine ⟨⟨?_, ?_, ?_⟩, ?_, ?_, ?_⟩
  · rw [hfail]
  · simp [createTaskModel, hq]
  · rw [hfail]
    simp [createTaskModel, hq]
  · simp [createTaskModel, hq, lookupA_insert_self]
  · exact addTask_fail_key_cached stO p o k ho
  · exact addTask_hit_not_rebuilt _ p o k _ true
      (addTask_fail_key_cached stO p o k ho)

/-- Witness for C3 amended at a concrete request. -/
theorem C3_witness :
    (((createTaskModel ⟨[], 0⟩ ("a.cl").toList ("-DX").toList false).1.programs
        = ([] : List (Str × Nat))) ∧
     (createTaskModel ⟨[], 0⟩ ("a.cl").toList ("-DX").toList false).2
        = QOutcome.buildErrorQ 0 0 ∧
     (createTaskModel (createTaskModel ⟨[], 0⟩ ("a.cl").toList
          ("-DX").toList false).1 ("a.cl").toList ("-DX").toList true).2
        = QOutcome.okQ true 1) ∧
    (lookupA ((createTaskModel ⟨[], 0⟩ ("a.cl").toList ("-DX").toList
          true).1).programs (fmtProgramId ("a.cl").toList ("-DX").toList)
        = some 0) ∧
    (lookupA ((addTaskModel ⟨[], [], 0⟩ ("a.cl").toList ("-DX").toList
          ("kern").toList false).1).programs
          (("a.cl").toList ++ ("-DX").toList) = some 0 ∧
     (addTaskModel (addTaskModel ⟨[], [], 0⟩ ("a.cl").toList ("-DX").toList
          ("kern").toList false).1 ("a.cl").toList ("-DX").toList
          ("kern").toList true).2.rebuiltProgram = some false) :=
  C3_amended ⟨[], [], 0⟩ ⟨[], 0⟩ ("a.cl").toList ("-DX").toList
    ("kern").toList rfl rfl

/-! ### Claim C7

The claim: a failed build surfaces the build log of the program that was
just built, i.e. of the program keyed under path-plus-options.
Queue::CreateTask prints the log of the just-built local program object.
OpenCLQueue::AddTask instead reads programs_ at the bare pathToProgram
key, which names the just-built program only when compileOptions is
empty; with non-empty options that key holds either an older cached
program for the bare path or a fresh default-constructed entry, in either
case not the program the failed build ran on. In both classes the log
goes to standard output and the original cl::Error is rethrown
unchanged. -/

/-- C7 counterexample: a failed AddTask build of (a.cl, -DX) runs on
program 0, which is cached under the requested path-plus-options key
a.cl-DX, but the build log printed is that of program 1, the fresh
default-constructed entry under the bare key a.cl, not that of the program
that was just built. -/
theorem C7_counterexample :
    failedAddTask.2 = CompileOutcome.buildError 0 1 ∧
    lookupA failedAddTask.1.programs
        (("a.cl").toList ++ ("-DX").toList) = some 0 ∧
    lookupA failedAddTask.1.programs (("a.cl").toList) = some 1 ∧
    (0 : Nat) ≠ 1 := by
  refine ⟨rfl, by decide, by decide, by decide⟩

/-- C7 amended: on a failed build, Queue::CreateTask prints the build log
of the very program the failed build ran on; OpenCLQueue::AddTask prints
the log of the programs_ entry under the bare path key, which is the
just-built program exactly when compileOptions is empty: with non-empty
options the logged program is some other object (a previously cached
entry for the bare path, or a fresh default-constructed one), never the
program the failed build ran on. The hypothesis hwf states that the
cached program identities predate the counter, which holds for every
state reachable from an empty cache. -/
theorem C7_build_log_source
    (stO : OCLState) (stQ : QState) (p o k : Str)
    (hq : lookupA stQ.programs (fmtProgramId p o) = none)
    (ho : lookupA stO.programs (p ++ o) = none)
    (hwf : ∀ e ∈ stO.programs, e.2 < stO.nextId) :
    (createTaskModel stQ p o false).2
        = QOutcome.buildErrorQ stQ.nextId stQ.nextId ∧
    (o = [] →
      (addTaskModel stO p o k false).2
        = CompileOutcome.buildError stO.nextId stO.nextId) ∧
    (o ≠ [] →
      ∃ lid, (addTaskModel stO p o k false).2
          = CompileOutcome.buildError stO.nextId lid ∧
        lid ≠ stO.nextId) := by
  refine ⟨?_, ?_, ?_⟩
  · simp [createTaskModel, hq]
  · intro he
    subst he
    have ho2 : lookupA stO.programs p = none := by
      simpa [List.append_nil] using ho
    simp [addTaskModel, List.append_nil, ho2, lookupA_insert_self]
  · intro hne0
    have hps : p ≠ p ++ o := by
      intro he
      apply hne0
      have hlen := congrArg List.length he
      simp only [List.length_append] at hlen
      have : o.length = 0 := by omega
      exact List.length_eq_zero.mp this
    have hlp : lookupA (insertA stO.programs (p ++ o) stO.nextId) p
        = lookupA stO.programs p := lookupA_insert_ne _ _ _ _ hps
    cases hlk : lookupA stO.programs p with
    | some lid =>
        obtain ⟨e, hem, he2⟩ := lookupA_some_mem stO.programs p lid hlk
        have hb := hwf e hem
        refine ⟨lid, ?_, by omega⟩
        simp only [addTaskModel, ho]
        simp [hlp, hlk]
    | none =>
        refine ⟨stO.nextId + 1, ?_, by omega⟩
        simp only [addTaskModel, ho]
        simp [hlp, hlk]

/-- Witness for C7 amended at a concrete request with non-empty options,
starting from an empty cache: the logged program 1 is not program 0, the
one the failed build ran on. -/
theorem C7_witness :
    (createTaskModel ⟨[], 0⟩ ("a.cl").toList (("-DX").toList) false).2
        = QOutcome.buildErrorQ 0 0 ∧
    ((("-DX").toList : Str) = [] →
      (addTaskModel ⟨[], [], 0⟩ ("a.cl").toList (("-DX").toList)
          ("kern").toList false).2 = CompileOutcome.buildError 0 0) ∧
    ((("-DX").toList : Str) ≠ [] →
      ∃ lid, (addTaskModel ⟨[], [], 0⟩ ("a.cl").toList (("-DX").toList)
          ("kern").toList false).2 = CompileOutcome.buildError 0 lid ∧
        lid ≠ 0) :=
  C7_build_log_source ⟨[], [], 0⟩ ⟨[], 0⟩ ("a.cl").toList (("-DX").toList)
    ("kern").toList rfl rfl (by simp)

/-! ### Binding-pipeline lemmas -/

theorem setKernelArgs_binds (n : Nat) (args : List CLArg) :
    (setKernelArgs n args).1.map Prod.fst = List.range' n args.length ∧
    (setKernelArgs n args).1.length = args.length := by
  induction args generalizing n with
  | nil => simp [setKernelArgs]
  | cons a rest ih =>
      cases h : a.io_type <;>
        simp [setKernelArgs, h, List.range', (ih (n + 1)).1, (ih (n + 1)).2]

theorem composeOutTuple_eq (args : List CLArg) :
    composeOutTuple args = (args.filter isOutArg).map CLArg.host_array := by
  induction args with
  | nil => rfl
  | cons a rest ih =>
      cases h : isOutArg a <;> simp [composeOutTuple, returnOutData, h, ih]

theorem getResults_hostIds (args : List CLArg) (n : Nat)
    (bufs : List DevBuffer) (ev : EvV) :
    (getResults n bufs ev args).2.map ReadBack.hostId
      = (args.filter isOutArg).map (fun a => a.host_array.id) := by
  induction args generalizing n ev with
  | nil => rfl
  | cons a rest ih => cases h : isOutArg a <;> simp [getResults, h, ih]

theorem setKernelArgs_srcArgs (args : List CLArg) (n : Nat) :
    (setKernelArgs n args).2.map DevBuffer.srcArg
      = ((args.enumFrom n).filter (fun p => isBufKind p.2)).map Prod.fst := by
  induction args generalizing n with
  | nil => rfl
  | cons a rest ih =>
      cases h : a.io_type <;>
        simp [setKernelArgs, h, List.enumFrom, isBufKind, ih]

theorem getResults_mem (args : List CLArg) (n : Nat) (bufs : List DevBuffer)
    (ev : EvV) (rb : ReadBack) (h : rb ∈ (getResults n bufs ev args).2) :
    ∃ i, i < args.length ∧ rb.argIndex = n + i ∧
      isOutArg (args.getD i dummyArg) = true ∧
      rb.buffer = bufs.getD (n + i) dummyBuffer := by
  induction args generalizing n ev with
  | nil => simp [getResults] at h
  | cons a rest ih =>
      cases hout : isOutArg a with
      | false =>
          rw [getResults] at h
          simp only [hout, Bool.false_eq_true, if_false] at h
          obtain ⟨i, hi, hidx, hget, hbuf⟩ := ih (n + 1) ev h
          refine ⟨i + 1, by simpa using hi, by omega, ?_, ?_⟩
          · simpa [List.getD_cons_succ] using hget
          · rw [hbuf]; congr 1; omega
      | true =>
          rw [getResults] at h
          simp only [hout, if_true] at h
          rcases List.mem_cons.mp h with heq | htail
          · refine ⟨0, by simp, ?_, ?_, ?_⟩
            · simp [heq]
            · simpa [List.getD_cons_zero] using hout
            · simp [heq]
          · obtain ⟨i, hi, hidx, hget, hbuf⟩ := ih (n + 1) (EvV.readEv n) htail
            refine ⟨i + 1, by simpa using hi, by omega, ?_, ?_⟩
            · simpa [List.getD_cons_succ] using hget
            · rw [hbuf]; congr 1; omega

theorem setKernelArgs_getD (args : List CLArg) (n i : Nat)
    (hlt : i < args.length)
    (hall : ∀ j, j < i → isBufKind (args.getD j dummyArg) = true)
    (hout : isBufKind (args.getD i dummyArg) = true) :
    ((setKernelArgs n args).2.getD i dummyBuffer).srcArg = n + i := by
  induction args generalizing n i with
  | nil => simp at hlt
  | cons a rest ih =>
      cases i with
      | zero =>
          rw [List.getD_cons_zero] at hout
          cases hio : a.io_type
          case IN => simp [setKernelArgs, hio]
          case OUT => simp [setKernelArgs, hio]
          case IN_OUT => simp [setKernelArgs, hio]
          case LOCALE => simp [isBufKind, hio] at hout
          case VAR => simp [isBufKind, hio] at hout
      | succ k =>
          have ha : isBufKind a = true := by
            have := hall 0 (Nat.succ_pos k)
            simpa [List.getD_cons_zero] using this
          have hall2 : ∀ j, j < k → isBufKind (rest.getD j dummyArg) = true := by
            intro j hj
            have := hall (j + 1) (Nat.succ_lt_succ hj)
            simpa [List.getD_cons_succ] using this
          have hout2 : isBufKind (rest.getD k dummyArg) = true := by
            simpa [List.getD_cons_succ] using hout
          have hlt2 : k < rest.length := by simpa using hlt
          have hrec := ih (n + 1) k hlt2 hall2 hout2
          cases hio : a.io_type
          case IN =>
            simp only [setKernelArgs, hio, List.getD_cons_succ]
            rw [hrec]
            omega
          case OUT =>
            simp only [setKernelArgs, hio, List.getD_cons_succ]
            rw [hrec]
            omega
          case IN_OUT =>
            simp only [setKernelArgs, hio, List.getD_cons_succ]
            rw [hrec]
            omega
          case LOCALE => simp [isBufKind, hio] at ha
          case VAR => simp [isBufKind, hio] at ha

theorem getResults_event (args : List CLArg) (n : Nat)
    (bufs : List DevBuffer) (ev : EvV) :
    (getResults n bufs ev args).1
      = match (getResults n bufs ev args).2.getLast? with
        | some rb => EvV.readEv rb.argIndex
        | none => ev := by
  induction args generalizing n ev with
  | nil => rfl
  | cons a rest ih =>
      cases hout : isOutArg a with
      | false => simpa [getResults, hout] using ih (n + 1) ev
      | true =>
          have ihh := ih (n + 1) (EvV.readEv n)
          cases hrest : (getResults (n + 1) bufs (EvV.readEv n) rest).2 with
          | nil =>
              rw [hrest] at ihh
              simp [getResults, hout, hrest, ihh]
          | cons x xs =>
              rw [hrest] at ihh
              cases hxs : (x :: xs).getLast? with
              | none =>
                  have : (x :: xs) = ([] : List ReadBack) :=
                    List.getLast?_eq_none_iff.mp hxs
                  exact absurd this (List.cons_ne_nil x xs)
              | some y =>
                  rw [hxs] at ihh
                  simp [getResults, hout, hrest, ihh, hxs,
                        List.getLast?_cons_cons]

theorem isBufKind_of_isOutArg (a : CLArg) (h : isOutArg a = true) :
    isBufKind a = true := by
  unfold isOutArg at h
  unfold isBufKind
  cases hio : a.io_type <;> simp_all

theorem taskSetArgs_spec (args : List TaskArg) (i : Nat) (st : TaskState) :
    (taskSetArgs i args st).binds
        = st.binds ++ (args.enumFrom i).map (fun p => (p.1, p.2.data)) ∧
    (taskSetArgs i args st).output_
        = st.output_ ++ (args.filter isTaskOut).map TaskArg.data ∧
    (taskSetArgs i args st).buffers_
        = st.buffers_ ++ (args.filter isTaskIn).map TaskArg.data := by
  induction args generalizing i st with
  | nil => simp [taskSetArgs]
  | cons a rest ih =>
      cases hb : a.isBufferArg <;> cases ht : a.arg_type <;>
        simp [taskSetArgs, taskSetArg, hb, ht, isTaskOut, isTaskIn,
              List.enumFrom, ih, List.append_assoc]

/-- C1 counterexample: for arguments (LOCALE, OUT, IN) the single
read-back targets the host array of argument 1 (the OUT argument) but
copies the device buffer realized for argument 2 (the IN argument),
because buffers[1] is the second buffer pushed (the IN buffer: argument 0
pushed none). So the read-back does not copy the device buffer realized
for that same argument. -/
theorem C1_counterexample :
    (addTaskEnqueue demoBadArgs).readbacks.map
        (fun rb => (rb.argIndex, rb.hostId, rb.buffer.srcArg, rb.buffer.mode))
      = [(1, 1, 2, BufMode.readOnlyCopyHost)] ∧
    (2 : Nat) ≠ 1 := by
  refine ⟨rfl, by decide⟩

/-- C1 amended: building a task binds exactly N kernel parameter slots,
each argument at the parameter index equal to its call-order position
(both in Task::SetArg and in OpenCLQueue::SetKernelArgs); the read-back
host arrays are exactly the subsequence of arguments tagged OUT or IN_OUT
in original order (ComposeOutTuple and the GetResults targets agree on
it); LOCALE and VAR arguments contribute to no buffer list; and each
enqueued read-back copies the device buffer realized for that same
argument PROVIDED every argument before it is a buffer argument (no
LOCALE or VAR precedes it): in general the read-back copies the buffer
stored at the absolute argument index of the shared buffers vector. -/
theorem C1_binding_readback (args : List CLArg) (targs : List TaskArg) :
    (addTaskEnqueue args).binds.map Prod.fst = List.range args.length ∧
    (addTaskEnqueue args).binds.length = args.length ∧
    (addTaskEnqueue args).outTuple
        = (args.filter isOutArg).map CLArg.host_array ∧
    (addTaskEnqueue args).readbacks.map ReadBack.hostId
        = (args.filter isOutArg).map (fun a => a.host_array.id) ∧
    (addTaskEnqueue args).buffers.map DevBuffer.srcArg
        = (args.enum.filter (fun p => isBufKind p.2)).map Prod.fst ∧
    (∀ rb ∈ (addTaskEnqueue args).readbacks,
        (∀ j, j < rb.argIndex → isBufKind (args.getD j dummyArg) = true) →
        rb.buffer.srcArg = rb.argIndex) ∧
    (taskBuild targs).binds = targs.enum.map (fun p => (p.1, p.2.data)) ∧
    (taskBuild targs).output_
        = (targs.filter isTaskOut).map TaskArg.data ∧
    (taskBuild targs).buffers_
        = (targs.filter isTaskIn).map TaskArg.data := by
  refine ⟨?_, ?_, ?_, ?_, ?_, ?_, ?_, ?_, ?_⟩
  · rw [List.range_eq_range']
    exact (setKernelArgs_binds 0 args).1
  · exact (setKernelArgs_binds 0 args).2
  · exact composeOutTuple_eq args
  · exact getResults_hostIds args 0 (setKernelArgs 0 args).2 EvV.kernelEv
  · exact setKernelArgs_srcArgs args 0
  · intro rb hrb hall
    obtain ⟨i, hi, hidx, hget, hbuf⟩ :=
      getResults_mem args 0 (setKernelArgs 0 args).2 EvV.kernelEv rb hrb
    have hidx0 : rb.argIndex = i := by omega
    have hout : isBufKind (args.getD i dummyArg) = true :=
      isBufKind_of_isOutArg _ hget
    have := setKernelArgs_getD args 0 i hi
      (fun j hj => hall j (by omega)) hout
    rw [hidx0, hbuf]
    simpa using this
  · simpa using (taskSetArgs_spec targs 0 ⟨[], [], []⟩).1
  · simpa using (taskSetArgs_spec targs 0 ⟨[], [], []⟩).2.1
  · simpa using (taskSetArgs_spec targs 0 ⟨[], [], []⟩).2.2

/-- Witness for C1 amended at the concrete argument lists
(IN, LOCALE, OUT) and a buffer/local/out mix for Task. -/
theorem C1_witness :
    (addTaskEnqueue [⟨DataType.IN, ⟨3, 8⟩⟩, ⟨DataType.LOCALE, ⟨4, 8⟩⟩,
        ⟨DataType.OUT, ⟨5, 8⟩⟩]).binds.map Prod.fst = List.range 3 ∧
    (addTaskEnqueue [⟨DataType.IN, ⟨3, 8⟩⟩, ⟨DataType.LOCALE, ⟨4, 8⟩⟩,
        ⟨DataType.OUT, ⟨5, 8⟩⟩]).binds.length = 3 ∧
    (addTaskEnqueue [⟨DataType.IN, ⟨3, 8⟩⟩, ⟨DataType.LOCALE, ⟨4, 8⟩⟩,
        ⟨DataType.OUT, ⟨5, 8⟩⟩]).outTuple
        = ([⟨DataType.IN, ⟨3, 8⟩⟩, ⟨DataType.LOCALE, ⟨4, 8⟩⟩,
            ⟨DataType.OUT, ⟨5, 8⟩⟩].filter isOutArg).map CLArg.host_array ∧
    (addTaskEnqueue [⟨DataType.IN, ⟨3, 8⟩⟩, ⟨DataType.LOCALE, ⟨4, 8⟩⟩,
        ⟨DataType.OUT, ⟨5, 8⟩⟩]).readbacks.map ReadBack.hostId
        = ([⟨DataType.IN, ⟨3, 8⟩⟩, ⟨DataType.LOCALE, ⟨4, 8⟩⟩,
            ⟨DataType.OUT, ⟨5, 8⟩⟩].filter isOutArg).map
            (fun a => a.host_array.id) ∧
    (addTaskEnqueue [⟨DataType.IN, ⟨3, 8⟩⟩, ⟨DataType.LOCALE, ⟨4, 8⟩⟩,
        ⟨DataType.OUT, ⟨5, 8⟩⟩]).buffers.map DevBuffer.srcArg
        = ([⟨DataType.IN, ⟨3, 8⟩⟩, ⟨DataType.LOCALE, ⟨4, 8⟩⟩,
            ⟨DataType.OUT, ⟨5, 8⟩⟩].enum.filter
            (fun p => isBufKind p.2)).map Prod.fst ∧
    (∀ rb ∈ (addTaskEnqueue [⟨DataType.IN, ⟨3, 8⟩⟩, ⟨DataType.LOCALE, ⟨4, 8⟩⟩,
        ⟨DataType.OUT, ⟨5, 8⟩⟩]).readbacks,
        (∀ j, j < rb.argIndex →
            isBufKind ([⟨DataType.IN, ⟨3, 8⟩⟩, ⟨DataType.LOCALE, ⟨4, 8⟩⟩,
              ⟨DataType.OUT, ⟨5, 8⟩⟩].getD j dummyArg) = true) →
        rb.buffer.srcArg = rb.argIndex) ∧
    (taskBuild [⟨true, 7, ArgTypeK.IN⟩, ⟨true, 8, ArgTypeK.OUT⟩]).binds
        = (([⟨true, 7, ArgTypeK.IN⟩, ⟨true, 8, ArgTypeK.OUT⟩] :
            List TaskArg).enum).map (fun p => (p.1, p.2.data)) ∧
    (taskBuild [⟨true, 7, ArgTypeK.IN⟩, ⟨true, 8, ArgTypeK.OUT⟩]).output_
        = (([⟨true, 7, ArgTypeK.IN⟩, ⟨true, 8, ArgTypeK.OUT⟩] :
            List TaskArg).filter isTaskOut).map TaskArg.data ∧
    (taskBuild [⟨true, 7, ArgTypeK.IN⟩, ⟨true, 8, ArgTypeK.OUT⟩]).buffers_
        = (([⟨true, 7, ArgTypeK.IN⟩, ⟨true, 8, ArgTypeK.OUT⟩] :
            List TaskArg).filter isTaskIn).map TaskArg.data :=
  C1_binding_readback
    [⟨DataType.IN, ⟨3, 8⟩⟩, ⟨DataType.LOCALE, ⟨4, 8⟩⟩, ⟨DataType.OUT, ⟨5, 8⟩⟩]
    [⟨true, 7, ArgTypeK.IN⟩, ⟨true, 8, ArgTypeK.OUT⟩]

/-! ### Claim C8 -/

/-- C8: the completion signal stored in the cl_future returned by AddTask
is the event of the last submitted read-back when at least one argument is
tagged OUT or IN_OUT, and the kernel-invocation event when no argument
requires read-back. Read-backs are submitted exactly for the OUT / IN_OUT
arguments, so the read-back list is empty precisely when no argument is so
tagged. -/
theorem C8_final_event (args : List CLArg) :
    ((addTaskEnqueue args).readbacks = [] →
        (addTaskReturnedFuture args).event = EvV.kernelEv) ∧
    (∀ rb, (addTaskEnqueue args).readbacks.getLast? = some rb →
        (addTaskReturnedFuture args).event = EvV.readEv rb.argIndex) ∧
    ((addTaskEnqueue args).readbacks = [] ↔
        ∀ a ∈ args, isOutArg a = false) ∧
    (addTaskReturnedFuture args).is_event_set = true := by
  have hev := getResults_event args 0 (setKernelArgs 0 args).2 EvV.kernelEv
  refine ⟨?_, ?_, ?_, rfl⟩
  · intro hnil
    have hnil2 : (getResults 0 (setKernelArgs 0 args).2 EvV.kernelEv args).2
        = [] := hnil
    rw [hnil2] at hev
    exact hev
  · intro rb hlast
    have hlast2 : (getResults 0 (setKernelArgs 0 args).2 EvV.kernelEv
        args).2.getLast? = some rb := hlast
    rw [hlast2] at hev
    exact hev
  · have hh := getResults_hostIds args 0 (setKernelArgs 0 args).2 EvV.kernelEv
    constructor
    · intro hnil
      have : ((args.filter isOutArg).map (fun a => a.host_array.id)) = [] := by
        rw [← hh]
        exact congrArg (List.map ReadBack.hostId) hnil
      have hfil : args.filter isOutArg = [] := by
        simpa using this
      intro a ha
      have := List.filter_eq_nil_iff.mp hfil a ha
      simpa using this
    · intro hall
      have hfil : args.filter isOutArg = [] :=
        List.filter_eq_nil_iff.mpr (fun a ha => by simp [hall a ha])
      have : (addTaskEnqueue args).readbacks.map ReadBack.hostId = [] := by
        rw [show (addTaskEnqueue args).readbacks
            = (getResults 0 (setKernelArgs 0 args).2 EvV.kernelEv args).2
          from rfl, hh, hfil]
        rfl
      simpa using this

/-- Witness for C8 at concrete arguments (IN, OUT, IN_OUT): the stored
event is the read-back event of argument 2, the last OUT / IN_OUT
argument. -/
theorem C8_witness :
    (addTaskReturnedFuture [⟨DataType.IN, ⟨0, 4⟩⟩, ⟨DataType.OUT, ⟨1, 4⟩⟩,
        ⟨DataType.IN_OUT, ⟨2, 4⟩⟩]).event = EvV.readEv 2 ∧
    (addTaskReturnedFuture ([⟨DataType.IN, ⟨0, 4⟩⟩] : List CLArg)).event
        = EvV.kernelEv :=
  ⟨(C8_final_event [⟨DataType.IN, ⟨0, 4⟩⟩, ⟨DataType.OUT, ⟨1, 4⟩⟩,
      ⟨DataType.IN_OUT, ⟨2, 4⟩⟩]).2.1 ⟨2, ⟨2, BufMode.readWriteCopyHost, 4⟩, 2, 4⟩ rfl,
   (C8_final_event ([⟨DataType.IN, ⟨0, 4⟩⟩] : List CLArg)).1 rfl⟩

/-! ### Resolution lemmas -/

theorem leadsWith_iff (pat : Str) : ∀ hay : Str,
    leadsWith pat hay = true ↔ ∃ t, hay = pat ++ t := by
  induction pat with
  | nil => intro hay; simp [leadsWith]
  | cons p ps ih =>
      intro hay
      cases hay with
      | nil => simp [leadsWith]
      | cons h t =>
          simp only [leadsWith, Bool.and_eq_true, beq_iff_eq, ih,
                     List.cons_append]
          constructor
          · rintro ⟨rfl, s, rfl⟩
            exact ⟨s, rfl⟩
          · rintro ⟨s, hs⟩
            injection hs with h1 h2
            exact ⟨h1.symm, s, h2⟩

theorem strFind_isSome_iff (pat : Str) : ∀ hay : Str,
    (strFind pat hay).isSome = true ↔ containsSub pat hay := by
  intro hay
  induction hay with
  | nil =>
      rw [strFind]
      by_cases hl : leadsWith pat [] = true
      · obtain ⟨t, ht⟩ := (leadsWith_iff pat []).mp hl
        rw [if_pos hl]
        simp only [Option.isSome_some, true_iff]
        exact ⟨[], t, by simpa using ht⟩
      · rw [if_neg hl]
        simp only [Option.isSome_none, Bool.false_eq_true, false_iff]
        rintro ⟨pre, post, hp⟩
        obtain ⟨h1, h2⟩ := List.append_eq_nil.mp hp.symm
        obtain ⟨h3, h4⟩ := List.append_eq_nil.mp h1
        exact hl ((leadsWith_iff pat []).mpr ⟨[], by simp [h4]⟩)
  | cons hh t ih =>
      rw [strFind]
      by_cases hl : leadsWith pat (hh :: t) = true
      · obtain ⟨s, hs⟩ := (leadsWith_iff pat (hh :: t)).mp hl
        rw [if_pos hl]
        simp only [Option.isSome_some, true_iff]
        exact ⟨[], s, by simpa using hs⟩
      · rw [if_neg hl, Option.isSome_map', ih]
        constructor
        · rintro ⟨pre, post, rfl⟩
          exact ⟨hh :: pre, post, rfl⟩
        · rintro ⟨pre, post, hp⟩
          cases pre with
          | nil =>
              exact absurd
                ((leadsWith_iff pat (hh :: t)).mpr ⟨post, by simpa using hp⟩)
                hl
          | cons c cs =>
              injection hp with h1 h2
              exact ⟨cs, post, h2⟩

theorem getD_mem_of_lt {α : Type} (l : List α) (i : Nat) (d : α)
    (h : i < l.length) : l.getD i d ∈ l := by
  rw [List.getD_eq_getElem l d h]
  exact List.getElem_mem h

theorem findFirstIdx_eq_none {α : Type} (p : α → Bool) (l : List α) :
    findFirstIdx p l = none ↔ ∀ a ∈ l, p a = false := by
  induction l with
  | nil => simp [findFirstIdx]
  | cons a rest ih => cases hp : p a <;> simp [findFirstIdx, hp, ih]

theorem findFirstIdx_eq_some {α : Type} (p : α → Bool) (d : α) :
    ∀ (l : List α) (i : Nat), findFirstIdx p l = some i →
      i < l.length ∧ p (l.getD i d) = true ∧
      ∀ j, j < i → p (l.getD j d) = false := by
  intro l
  induction l with
  | nil => intro i h; simp [findFirstIdx] at h
  | cons a rest ih =>
      intro i h
      cases hp : p a with
      | true =>
          rw [findFirstIdx, hp, if_pos rfl] at h
          obtain rfl : (0 : Nat) = i := Option.some_injective _ h
          exact ⟨by simp, by simpa using hp, fun j hj => absurd hj (by omega)⟩
      | false =>
          rw [findFirstIdx, hp] at h
          simp only [Bool.false_eq_true, if_false, Option.map_eq_some'] at h
          obtain ⟨k, hk, hki⟩ := h
          obtain ⟨h1, h2, h3⟩ := ih k hk
          subst hki
          refine ⟨by simpa using h1,
                  by simpa [List.getD_cons_succ] using h2, ?_⟩
          intro j hj
          cases j with
          | zero => simpa using hp
          | succ m =>
              have := h3 m (by omega)
              simpa [List.getD_cons_succ] using this

theorem resolveFirst_spec (pp : PlatformM → Bool) (dp : Str → Bool)
    (ps : List PlatformM) :
    (resolveFirst pp dp ps = Except.error CL_INVALID_PLATFORM ↔
        ∀ pm ∈ ps, pp pm = false) ∧
    (∀ i j, resolveFirst pp dp ps = Except.ok (i, j) →
        i < ps.length ∧ pp (ps.getD i pmDefault) = true ∧
        (∀ k, k < i → pp (ps.getD k pmDefault) = false) ∧
        j < (ps.getD i pmDefault).devices.length ∧
        dp ((ps.getD i pmDefault).devices.getD j []) = true ∧
        (∀ l, l < j → dp ((ps.getD i pmDefault).devices.getD l []) = false)) ∧
    (resolveFirst pp dp ps = Except.error CL_INVALID_DEVICE →
        ∃ i, i < ps.length ∧ pp (ps.getD i pmDefault) = true ∧
          ∀ d ∈ (ps.getD i pmDefault).devices, dp d = false) := by
  refine ⟨?_, ?_, ?_⟩
  · constructor
    · intro herr
      cases hfi : findFirstIdx pp ps with
      | none => exact (findFirstIdx_eq_none pp ps).mp hfi
      | some i =>
          exfalso
          simp only [resolveFirst, hfi] at herr
          cases hdi : findFirstIdx dp (ps.getD i pmDefault).devices with
          | none =>
              rw [hdi] at herr
              have : CL_INVALID_DEVICE = CL_INVALID_PLATFORM :=
                Except.error.inj herr
              simp [CL_INVALID_DEVICE, CL_INVALID_PLATFORM] at this
          | some j =>
              rw [hdi] at herr
              exact Except.noConfusion herr
    · intro hall
      have hfi : findFirstIdx pp ps = none :=
        (findFirstIdx_eq_none pp ps).mpr hall
      simp only [resolveFirst, hfi]
  · intro i j hok
    cases hfi : findFirstIdx pp ps with
    | none =>
        simp only [resolveFirst, hfi] at hok
        exact Except.noConfusion hok
    | some i2 =>
        simp only [resolveFirst, hfi] at hok
        cases hdi : findFirstIdx dp (ps.getD i2 pmDefault).devices with
        | none => rw [hdi] at hok; exact Except.noConfusion hok
        | some j2 =>
            rw [hdi] at hok
            have hpair := Except.ok.inj hok
            have hi : i2 = i := congrArg Prod.fst hpair
            have hj : j2 = j := congrArg Prod.snd hpair
            subst hi
            subst hj
            obtain ⟨hp1, hp2, hp3⟩ :=
              findFirstIdx_eq_some pp pmDefault ps i2 hfi
            obtain ⟨hd1, hd2, hd3⟩ :=
              findFirstIdx_eq_some dp [] (ps.getD i2 pmDefault).devices j2 hdi
            exact ⟨hp1, hp2, hp3, hd1, hd2, hd3⟩
  · intro herr
    cases hfi : findFirstIdx pp ps with
    | none =>
        simp only [resolveFirst, hfi] at herr
        have : CL_INVALID_PLATFORM = CL_INVALID_DEVICE :=
          Except.error.inj herr
        simp [CL_INVALID_DEVICE, CL_INVALID_PLATFORM] at this
    | some i =>
        simp only [resolveFirst, hfi] at herr
        obtain ⟨hp1, hp2, hp3⟩ := findFirstIdx_eq_some pp pmDefault ps i hfi
        cases hdi : findFirstIdx dp (ps.getD i pmDefault).devices with
        | none =>
            exact ⟨i, hp1, hp2,
              (findFirstIdx_eq_none dp (ps.getD i pmDefault).devices).mp hdi⟩
        | some j => rw [hdi] at herr; exact Except.noConfusion herr

/-! ### Claim C9

The claim: name-based resolution is a CASE-INSENSITIVE substring match
over platform names, then device names, first match in enumeration order,
with CL_INVALID_PLATFORM / CL_INVALID_DEVICE on failure. That is exactly
Queue::Queue from queue.cc (which upper-cases both sides), but
OpenCLQueue::OpenCLQueue from opencl_queue.cc passes the raw strings to
std::string::find, so its match is case-sensitive. -/

/-- C9 counterexample: with one enumerated platform named Intel, the
pattern INTEL resolves under the case-insensitive Queue matching but makes
the OpenCLQueue constructor throw CL_INVALID_PLATFORM, refuting
case-insensitivity of OpenCLQueue resolution at a concrete input. -/
theorem C9_counterexample :
    openclResolve [⟨("Intel").toList, [("Gpu").toList]⟩] (("INTEL").toList)
        (("Gpu").toList) = Except.error CL_INVALID_PLATFORM ∧
    queueResolve [⟨("Intel").toList, [("Gpu").toList]⟩] (("INTEL").toList)
        (("Gpu").toList) = Except.ok (0, 0) := by
  exact ⟨rfl, rfl⟩

/-- C9 amended: Queue::Queue resolution (queue.cc) is a case-insensitive
substring match, first over enumerated platform names and then over the
matched platform's device names, selecting the first match in enumeration
order and failing with CL_INVALID_PLATFORM when no platform matches and
with CL_INVALID_DEVICE when the matched platform has no matching device;
OpenCLQueue::OpenCLQueue resolution (opencl_queue.cc) behaves identically
except that the substring match is case-sensitive. -/
theorem C9_resolution (ps : List PlatformM) (pl dv : Str) :
    (queueResolve ps pl dv = Except.error CL_INVALID_PLATFORM ↔
        ∀ pm ∈ ps, ¬ containsSub (toUpperL pl) (toUpperL pm.name)) ∧
    (∀ i j, queueResolve ps pl dv = Except.ok (i, j) →
        i < ps.length ∧
        containsSub (toUpperL pl) (toUpperL (ps.getD i pmDefault).name) ∧
        (∀ k, k < i →
          ¬ containsSub (toUpperL pl) (toUpperL (ps.getD k pmDefault).name)) ∧
        j < (ps.getD i pmDefault).devices.length ∧
        containsSub (toUpperL dv)
          (toUpperL ((ps.getD i pmDefault).devices.getD j [])) ∧
        (∀ l, l < j → ¬ containsSub (toUpperL dv)
          (toUpperL ((ps.getD i pmDefault).devices.getD l [])))) ∧
    (queueResolve ps pl dv = Except.error CL_INVALID_DEVICE →
        ∃ i, i < ps.length ∧
          containsSub (toUpperL pl) (toUpperL (ps.getD i pmDefault).name) ∧
          ∀ d ∈ (ps.getD i pmDefault).devices,
            ¬ containsSub (toUpperL dv) (toUpperL d)) ∧
    (openclResolve ps pl dv = Except.error CL_INVALID_PLATFORM ↔
        ∀ pm ∈ ps, ¬ containsSub pl pm.name) ∧
    (∀ i j, openclResolve ps pl dv = Except.ok (i, j) →
        i < ps.length ∧ containsSub pl (ps.getD i pmDefault).name ∧
        (∀ k, k < i → ¬ containsSub pl (ps.getD k pmDefault).name) ∧
        j < (ps.getD i pmDefault).devices.length ∧
        containsSub dv ((ps.getD i pmDefault).devices.getD j []) ∧
        (∀ l, l < j →
          ¬ containsSub dv ((ps.getD i pmDefault).devices.getD l []))) ∧
    (openclResolve ps pl dv = Except.error CL_INVALID_DEVICE →
        ∃ i, i < ps.length ∧ containsSub pl (ps.getD i pmDefault).name ∧
          ∀ d ∈ (ps.getD i pmDefault).devices, ¬ containsSub dv d) := by
  have hbool : ∀ (pat hay : Str),
      ((strFind pat hay).isSome = false ↔ ¬ containsSub pat hay) := by
    intro pat hay
    rw [← strFind_isSome_iff pat hay]
    cases (strFind pat hay).isSome <;> simp
  have hq := resolveFirst_spec
    (fun pm => (strFind (toUpperL pl) (toUpperL pm.name)).isSome)
    (fun d => (strFind (toUpperL dv) (toUpperL d)).isSome) ps
  have ho := resolveFirst_spec
    (fun pm => (strFind pl pm.name).isSome)
    (fun d => (strFind dv d).isSome) ps
  refine ⟨?_, ?_, ?_, ?_, ?_, ?_⟩
  · constructor
    · intro h pm hpm
      exact (hbool _ _).mp (hq.1.mp h pm hpm)
    · intro h
      exact hq.1.mpr (fun pm hpm => (hbool _ _).mpr (h pm hpm))
  · intro i j hok
    obtain ⟨a1, a2, a3, a4, a5, a6⟩ := hq.2.1 i j hok
    exact ⟨a1, (strFind_isSome_iff _ _).mp a2,
           fun k hk => (hbool _ _).mp (a3 k hk), a4,
           (strFind_isSome_iff _ _).mp a5,
           fun l hl => (hbool _ _).mp (a6 l hl)⟩
  · intro herr
    obtain ⟨i, h1, h2, h3⟩ := hq.2.2 herr
    exact ⟨i, h1, (strFind_isSome_iff _ _).mp h2,
           fun d hd => (hbool _ _).mp (h3 d hd)⟩
  · constructor
    · intro h pm hpm
      exact (hbool _ _).mp (ho.1.mp h pm hpm)
    · intro h
      exact ho.1.mpr (fun pm hpm => (hbool _ _).mpr (h pm hpm))
  · intro i j hok
    obtain ⟨a1, a2, a3, a4, a5, a6⟩ := ho.2.1 i j hok
    exact ⟨a1, (strFind_isSome_iff _ _).mp a2,
           fun k hk => (hbool _ _).mp (a3 k hk), a4,
           (strFind_isSome_iff _ _).mp a5,
           fun l hl => (hbool _ _).mp (a6 l hl)⟩
  · intro herr
    obtain ⟨i, h1, h2, h3⟩ := ho.2.2 herr
    exact ⟨i, h1, (strFind_isSome_iff _ _).mp h2,
           fun d hd => (hbool _ _).mp (h3 d hd)⟩

/-- Witness for C9 at a concrete enumeration: the case-insensitive Queue
resolution selects platform 0 and device 0 for lowercase patterns against
mixed-case names, and the amended theorem yields the substring fact for
the matched platform. -/
theorem C9_witness :
    queueResolve [⟨("Intel Corp").toList, [("HD Graphics").toList]⟩]
        (("intel").toList) (("graphics").toList) = Except.ok (0, 0) ∧
    containsSub (toUpperL (("intel").toList))
        (toUpperL (("Intel Corp").toList)) :=
  ⟨rfl,
   ((C9_resolution [⟨("Intel Corp").toList, [("HD Graphics").toList]⟩]
       (("intel").toList) (("graphics").toList)).2.1 0 0 rfl).2.1⟩

/-! ### Claim C10 -/

/-- C10: the range guards of Queue::Queue(int, int) compare only
size <= id, so a negative platformId is not rejected: no
CL_INVALID_PLATFORM is thrown and the platform vector is subscripted at
the negative index (out of bounds); likewise, with a valid platformId, a
negative deviceId is not rejected and the device vector is subscripted at
the negative index. -/
theorem C10_negative_ids (nP nD : Nat) (pid did : Int) :
    (pid < 0 →
      (queueCtorIdx nP nD pid did).threw ≠ some CL_INVALID_PLATFORM ∧
      (queueCtorIdx nP nD pid did).platformAccess = some pid ∧
      ¬ (0 ≤ pid ∧ pid < (nP : Int))) ∧
    (0 ≤ pid → pid < (nP : Int) → did < 0 →
      (queueCtorIdx nP nD pid did).threw = none ∧
      (queueCtorIdx nP nD pid did).deviceAccess = some did ∧
      ¬ (0 ≤ did ∧ did < (nD : Int))) := by
  constructor
  · intro hneg
    have hc1 : ¬ ((nP : Int) ≤ pid) := by omega
    refine ⟨?_, ?_, ?_⟩
    · by_cases hc2 : (nD : Int) ≤ did <;>
        simp [queueCtorIdx, hc1, hc2, CL_INVALID_DEVICE, CL_INVALID_PLATFORM]
    · by_cases hc2 : (nD : Int) ≤ did <;> simp [queueCtorIdx, hc1, hc2]
    · omega
  · intro h0 hlt hdneg
    have hc1 : ¬ ((nP : Int) ≤ pid) := by omega
    have hc2 : ¬ ((nD : Int) ≤ did) := by omega
    refine ⟨?_, ?_, ?_⟩
    · simp [queueCtorIdx, hc1, hc2]
    · simp [queueCtorIdx, hc1, hc2]
    · omega

/-- Witness for C10 at a system with one platform holding one device and
the negative indices minus one. -/
theorem C10_witness :
    (queueCtorIdx 1 1 (-1) 0).threw ≠ some CL_INVALID_PLATFORM ∧
    (queueCtorIdx 1 1 (-1) 0).platformAccess = some (-1) ∧
    (queueCtorIdx 1 1 0 (-1)).threw = none ∧
    (queueCtorIdx 1 1 0 (-1)).deviceAccess = some (-1) :=
  ⟨((C10_negative_ids 1 1 (-1) 0).1 (by decide)).1,
   ((C10_negative_ids 1 1 (-1) 0).1 (by decide)).2.1,
   ((C10_negative_ids 1 1 0 (-1)).2 (by decide) (by decide) (by decide)).1,
   ((C10_negative_ids 1 1 0 (-1)).2 (by decide) (by decide) (by decide)).2.1⟩

end oclalgo
